import Mathlib

/-!
# Verification of the `draw` real-time relay server

Shallow embedding of the relay core of the `draw` repository
(`src/server.js`, `src/lib/rooms.js`, `src/lib/valkey.js`; `rooms.js` and
the valkey module appear twice in the repository — the later copies, with
`closeRoom(reason)` taking an explicit reason, are the live ones and are
the ones embedded here).

Machine-level conventions of the embedding:
* WebSocket connections are identified by `ClientId := Nat`; a connection's
  `readyState === 1` test is modelled by an environment `ready : ClientId → Bool`.
* `Date.now()` is an explicit `now : Int` parameter.
* JavaScript JSON values are modelled by `JVal`; a missing property
  (`undefined`) is `Option.none` at the use sites.
* `JSON.parse` is a JS-runtime primitive, so message handlers take an
  arbitrary `parse : String → Option JVal` parameter (`none` = throw);
  `JSON.stringify` is embedded as `stringifyJson`.
* Effects on sockets (`ws.send`, `ws.close`) are collected in an `Output`
  list; `console.*` logging and the fire-and-forget Discord webhook are
  discarded, as they touch no relay state.
-/

/-- JavaScript JSON values (results of `JSON.parse`, message fields). -/
inductive JVal where
  | jnull : JVal
  | jbool : Bool → JVal
  | jnum : Int → JVal
  | jstr : String → JVal
  | jobj : List (String × JVal) → JVal
  | jarr : List JVal → JVal

/-- JavaScript truthiness of a JSON value. -/
def JVal.truthy : JVal → Bool
  | .jnull => false
  | .jbool b => b
  | .jnum n => decide (n ≠ 0)
  | .jstr s => decide (s ≠ "")
  | .jobj _ => true
  | .jarr _ => true

/-- Property lookup `v[k]` on a parsed JSON object (`undefined` = `none`). -/
def lookupField : List (String × JVal) → String → Option JVal
  | [], _ => none
  | (k', v) :: rest, k => if k' = k then some v else lookupField rest k

/-- `v.k` property access; non-objects have no own string properties here. -/
def JVal.getField : JVal → String → Option JVal
  | .jobj fs, k => lookupField fs k
  | _, _ => none

/-- `parsed && typeof parsed === 'object'`: a truthy value of type
`'object'`, i.e. an object or an array (`null` is falsy). -/
def JVal.isObjLike : JVal → Bool
  | .jobj _ => true
  | .jarr _ => true
  | _ => false

/-- Lower-case hexadecimal digit, for `\u00XX` escapes. -/
def hexDigit (n : Nat) : Char :=
  if n < 10 then Char.ofNat (48 + n) else Char.ofNat (87 + (n % 16))

/-- Four-digit hexadecimal rendering of a code point below 0x10000. -/
def hex4 (n : Nat) : String :=
  String.mk [hexDigit (n / 4096 % 16), hexDigit (n / 256 % 16),
             hexDigit (n / 16 % 16), hexDigit (n % 16)]

/-- JSON string escaping of one character, as `JSON.stringify` does it. -/
def escapeChar (c : Char) : String :=
  if c = '"' then "\\\""
  else if c = '\\' then "\\\\"
  else if c = '\n' then "\\n"
  else if c = '\r' then "\\r"
  else if c = '\t' then "\\t"
  else if c = Char.ofNat 8 then "\\b"
  else if c = Char.ofNat 12 then "\\f"
  else if c.toNat < 32 then "\\u" ++ hex4 c.toNat
  else String.singleton c

/-- JSON string escaping, character by character. -/
def escapeString (s : String) : String :=
  s.data.foldl (fun acc c => acc ++ escapeChar c) ""

/-- A double-quoted JSON string literal. -/
def quoted (s : String) : String := "\"" ++ escapeString s ++ "\""

mutual

/-- `JSON.stringify` on `JVal` (integers only in the number case, which is
all the relay ever serialises). -/
def stringifyJson : JVal → String
  | .jnull => "null"
  | .jbool true => "true"
  | .jbool false => "false"
  | .jnum n => toString n
  | .jstr s => quoted s
  | .jobj fs => "\x7b" ++ stringifyFields fs ++ "\x7d"
  | .jarr es => "[" ++ stringifyElems es ++ "]"

/-- Comma-separated `"key":value` renderings of an object's fields. -/
def stringifyFields : List (String × JVal) → String
  | [] => ""
  | [(k, v)] => quoted k ++ ":" ++ stringifyJson v
  | (k, v) :: rest => quoted k ++ ":" ++ stringifyJson v ++ "," ++ stringifyFields rest

/-- Comma-separated renderings of an array's elements. -/
def stringifyElems : List JVal → String
  | [] => ""
  | [e] => stringifyJson e
  | e :: rest => stringifyJson e ++ "," ++ stringifyElems rest

end

/-- `s[0] === c`: embeds the one-character `String.prototype.startsWith`
tests of the source (`snapshot.startsWith('\x7b')` etc.). -/
def firstCharIs (s : String) (c : Char) : Bool :=
  match s.data with
  | [] => false
  | a :: _ => a = c

/-- `s.startsWith('\x7b')` — the JSON-envelope sniff used on stored snapshots. -/
def startsWithBrace (s : String) : Bool := firstCharIs s (Char.ofNat 123)

/-! ## Sliding-window rate limiter (`src/server.js`, class `SlidingWindowRateLimiter`) -/

/-- State of one per-connection `SlidingWindowRateLimiter`. -/
structure RateLimiter where
  windowMs : Int
  maxRequests : Nat
  timestamps : List Int

/-- The record returned by `checkAndRecord()`. -/
structure CheckResult where
  allowed : Bool
  remaining : Nat
  resetIn : Int

/-- `new SlidingWindowRateLimiter(windowMs, maxRequests)`. -/
def initLimiter (w : Int) (q : Nat) : RateLimiter :=
  { windowMs := w, maxRequests := q, timestamps := [] }

/-- `checkAndRecord()` at time `now`: prune timestamps to the trailing
window, reject when the pruned count reaches the quota (reporting the time
until the oldest retained timestamp exits the window), otherwise record
`now` and admit. -/
def checkAndRecord (rl : RateLimiter) (now : Int) : RateLimiter × CheckResult :=
  let ts := rl.timestamps.filter (fun t => decide (now - rl.windowMs < t))
  if rl.maxRequests ≤ ts.length then
    ({ rl with timestamps := ts },
     { allowed := false, remaining := 0,
       resetIn := ts.headD 0 + rl.windowMs - now })
  else
    ({ rl with timestamps := ts ++ [now] },
     { allowed := true, remaining := rl.maxRequests - (ts.length + 1),
       resetIn := rl.windowMs })

/-- The pruning side effect of `getUsageLevel()` (the usage ratio itself is
only logged). -/
def pruneTimestamps (rl : RateLimiter) (now : Int) : RateLimiter :=
  { rl with timestamps := rl.timestamps.filter (fun t => decide (now - rl.windowMs < t)) }

/-- Run the limiter over a sequence of call times; returns the final state
and the list of admitted call times. -/
def runAdmitted : RateLimiter → List Int → RateLimiter × List Int
  | rl, [] => (rl, [])
  | rl, t :: ts =>
    let p := checkAndRecord rl t
    let r := runAdmitted p.1 ts
    (r.1, if p.2.allowed then t :: r.2 else r.2)

/-- The admitted call times of a run. -/
def admittedTimes (rl : RateLimiter) (ts : List Int) : List Int :=
  (runAdmitted rl ts).2

/-- The time of the last call of a run (`n0` when there was none). -/
def lastTime (n0 : Int) : List Int → Int
  | [] => n0
  | t :: ts => lastTime t ts

/-! ## Durable snapshot store (`src/lib/valkey.js`) -/

/-- The external key-value store, as the association of live keys to string
values (TTL expiry is not modelled; no claim depends on it). -/
def Store := List (String × String)

/-- Key layout `room:<roomId>:snapshot`. -/
def snapKey (roomId : String) : String := "room:" ++ roomId ++ ":snapshot"

/-- Store lookup. -/
def storeGet : Store → String → Option String
  | [], _ => none
  | (k', v) :: rest, k => if k' = k then some v else storeGet rest k

/-- Store write (`SETEX`: replace or insert). -/
def storeSet : Store → String → String → Store
  | [], k, v => [(k, v)]
  | (k', v') :: rest, k, v =>
    if k' = k then (k, v) :: rest else (k', v') :: storeSet rest k v

/-- `saveSnapshot(roomId, payload)`. -/
def saveSnapshot (st : Store) (roomId payload : String) : Store :=
  storeSet st (snapKey roomId) payload

/-- `getSnapshot(roomId)`. -/
def getSnapshot (st : Store) (roomId : String) : Option String :=
  storeGet st (snapKey roomId)

/-! ## Rooms and the room registry (`src/lib/rooms.js`) -/

/-- A WebSocket connection identity. -/
abbrev ClientId := Nat

/-- A `Room`: member set (insertion-ordered, duplicate-free like a JS
`Set`), host back-reference, activity timestamp, and the armed/disarmed
state of its two timers. -/
structure Room where
  id : String
  clients : List ClientId
  hostWs : Option ClientId
  lastActivity : Int
  snapshotTimer : Bool
  emptyCountdownTimer : Bool

/-- `new Room(roomId)` at time `now`. -/
def Room.new (roomId : String) (now : Int) : Room :=
  { id := roomId, clients := [], hostWs := none, lastActivity := now,
    snapshotTimer := false, emptyCountdownTimer := false }

/-- `Room.addClient(ws)`: first joiner becomes host; insert into the member
set; refresh activity; cancel any armed empty countdown. -/
def Room.addClient (r : Room) (ws : ClientId) (now : Int) : Room :=
  let r := if r.clients.length = 0 then { r with hostWs := some ws } else r
  let clients' := if ws ∈ r.clients then r.clients else r.clients ++ [ws]
  { r with clients := clients', lastActivity := now, emptyCountdownTimer := false }

/-- `Room.isHost(ws)`. -/
def Room.isHost (r : Room) (ws : ClientId) : Bool := r.hostWs = some ws

/-- `Room.removeClient(ws)`: delete from the member set, refresh activity;
when the room becomes empty, stop the snapshot timer and arm the empty
countdown.  (The host reference is not touched.) -/
def Room.removeClient (r : Room) (ws : ClientId) (now : Int) : Room :=
  let clients' := r.clients.filter (fun c => decide (c ≠ ws))
  let r := { r with clients := clients', lastActivity := now }
  if clients'.length = 0 then
    { r with snapshotTimer := false, emptyCountdownTimer := true }
  else r

/-- Outbound socket messages the relay produces. -/
inductive OutMsg where
  | authOk : OutMsg
  | error : String → OutMsg
  | errorRetry : String → Int → OutMsg
  | joined : String → Nat → Bool → OutMsg
  | snapshotMsg : JVal → JVal → OutMsg
  | peerJoined : Nat → OutMsg
  | peerLeft : Option JVal → Nat → OutMsg
  | update : Option JVal → OutMsg
  | awareness : Option JVal → OutMsg
  | roomSettings : Option JVal → OutMsg
  | roomClosed : String → OutMsg

/-- Socket effects: a `ws.send` of a message, or a `ws.close(code, reason)`. -/
inductive Output where
  | send : ClientId → OutMsg → Output
  | close : ClientId → Nat → String → Output

/-- The connection an output is addressed to. -/
def Output.target : Output → ClientId
  | .send c _ => c
  | .close c _ _ => c

/-- `Room.broadcast(data, exclude)`: refresh activity and send to every
member with an open socket other than `exclude`. -/
def Room.broadcastF (r : Room) (ready : ClientId → Bool) (m : OutMsg)
    (ex : Option ClientId) (now : Int) : Room × List Output :=
  ({ r with lastActivity := now },
   (r.clients.filter (fun c => decide (some c ≠ ex) && ready c)).map
     (fun c => Output.send c m))

/-- Close code chosen by `Room.closeRoom(reason)`. -/
def closeCode (reason : String) : Nat :=
  if reason = "server_shutdown" then 1001 else 1000

/-- Close phrase chosen by `Room.closeRoom(reason)`. -/
def closePhrase (reason : String) : String :=
  if reason = "server_shutdown" then "Server shutting down" else "Room closed by host"

/-- The socket effects of `Room.closeRoom(reason)`: a `room_closed`
notification to every open member, then a close of every member's socket. -/
def Room.closeRoomOutputs (r : Room) (ready : ClientId → Bool) (reason : String) :
    List Output :=
  (r.clients.filter ready).map (fun c => Output.send c (OutMsg.roomClosed reason))
    ++ r.clients.map (fun c => Output.close c (closeCode reason) (closePhrase reason))

/-- The mutation `Room.closeRoom` performs on the room object itself:
clear membership and cancel both timers. -/
def Room.closeRoomState (r : Room) : Room :=
  { r with clients := [], emptyCountdownTimer := false, snapshotTimer := false }

/-- The registry's global `rooms` map (insertion-ordered, unique keys). -/
abbrev Registry := List (String × Room)

/-- `getRoom(roomId)` / `rooms.get(roomId)`. -/
def lookupRoom : Registry → String → Option Room
  | [], _ => none
  | (k, r) :: rest, rid => if k = rid then some r else lookupRoom rest rid

/-- `rooms.set(roomId, room)`: replace in place or append. -/
def setRoom : Registry → String → Room → Registry
  | [], rid, room => [(rid, room)]
  | (k, r) :: rest, rid, room =>
    if k = rid then (rid, room) :: rest else (k, r) :: setRoom rest rid room

/-- `rooms.delete(roomId)`. -/
def removeRoomEntry (rooms : Registry) (rid : String) : Registry :=
  rooms.filter (fun p => decide (p.1 ≠ rid))

/-- `deleteRoom(roomId)`: when the id is mapped, clear the room's snapshot
timer and unmap it.  The second component is the final state of the
detached room object (which the JS code mutates via `clearSnapshotTimer`
just before unmapping it); `none` when the id was absent. -/
def deleteRoom (rooms : Registry) (rid : String) : Registry × Option Room :=
  match lookupRoom rooms rid with
  | some room => (removeRoomEntry rooms rid, some { room with snapshotTimer := false })
  | none => (rooms, none)

/-- `getOrCreateRoom(roomId)` at time `now`: returns the updated registry
and the mapped room. -/
def getOrCreateRoom (rooms : Registry) (rid : String) (now : Int) : Registry × Room :=
  match lookupRoom rooms rid with
  | some r => (rooms, r)
  | none =>
    let r := Room.new rid now
    (setRoom rooms rid r, r)

/-- `Room.closeRoom(reason)` together with its registry effect: the socket
effects, the detached room object's final state, and the registry after
`deleteRoom(this.id)`. -/
def closeRoomFull (rooms : Registry) (r : Room) (ready : ClientId → Bool)
    (reason : String) : Registry × Room × List Output :=
  let outs := r.closeRoomOutputs ready reason
  let r' := r.closeRoomState
  ((deleteRoom rooms r.id).1, r', outs)

/-! ## Connection session and protocol dispatch (`src/server.js`) -/

/-- `MAX_BROADCAST_DATA_SIZE = 512 * 1024` (string length, in code units). -/
def MAX_BROADCAST_DATA_SIZE : Nat := 512 * 1024

/-- `validateBroadcastData(data)`: `none` = valid, `some reason` = the
rejection reason sent back in the error reply. -/
def validateBroadcastData (data : Option JVal) : Option String :=
  match data with
  | some (JVal.jstr s) =>
    if MAX_BROADCAST_DATA_SIZE < s.length then some "Data exceeds maximum size"
    else if 0 < s.length then
      let isBase64 := s.data.all (fun c =>
        c.isAlphanum || c = '+' || c = '/' || c = '=')
      let isJson := firstCharIs s (Char.ofNat 123) || firstCharIs s '['
      if !isBase64 && !isJson then some "Invalid data format" else none
    else none
  | _ => some "Data must be a string"

/-- Per-socket session state of the `wss.on('connection')` closure. -/
structure Session where
  selfId : ClientId
  isAuthenticated : Bool
  currentRoom : Option String
  clientId : Option JVal
  rateLimiter : RateLimiter

/-- An inbound protocol frame after `JSON.parse` (each field `none` when
the property is absent from the parsed object). -/
structure InMsg where
  type : Option JVal
  key : Option JVal
  roomId : Option JVal
  clientId : Option JVal
  data : Option JVal
  settings : Option JVal

/-- The mutable relay-wide state a handler can touch: the room registry
and the external snapshot store. -/
structure World where
  rooms : Registry
  store : Store

/-- Server configuration consumed by the dispatch. -/
structure Config where
  internalKey : String
  maxRooms : Nat

/-- The result of handling one inbound frame. -/
structure StepResult where
  world : World
  session : Session
  outputs : List Output

/-- `message.type` when it is a string. -/
def msgTypeStr (m : InMsg) : Option String :=
  match m.type with
  | some (JVal.jstr t) => some t
  | _ => none

/-- `message.key !== DRAW_INTERNAL_KEY` (strict equality against a string). -/
def keyMatches (m : InMsg) (k : String) : Bool :=
  match m.key with
  | some (JVal.jstr s) => s = k
  | _ => false

/-- `if (clientId) ws.clientId = clientId` — tag the session when the
supplied id is truthy. -/
def tagClient (s : Session) (cid : Option JVal) : Session :=
  match cid with
  | some v => if v.truthy then { s with clientId := some v } else s
  | none => s

/-- `!roomId || typeof roomId !== 'string'`: the room id argument when it
is a truthy string. -/
def roomIdString (v : Option JVal) : Option String :=
  match v with
  | some (JVal.jstr r) => if r = "" then none else some r
  | _ => none

/-- The `/^[a-zA-Z0-9-]+$/` room-id format test. -/
def validRoomIdFormat (r : String) : Bool :=
  decide (r ≠ "") && r.data.all (fun c => c.isAlphanum || c = '-')

/-- `JSON.stringify({data, settings})` where an absent `settings`
(`undefined`) is dropped from the envelope. -/
def envelopeString (d : JVal) (settings : Option JVal) : String :=
  match settings with
  | some sv => stringifyJson (JVal.jobj [("data", d), ("settings", sv)])
  | none => stringifyJson (JVal.jobj [("data", d)])

/-- `if (parsed.k) x = parsed.k`: the `k` field of a parsed envelope when
it is present and truthy, else the fallback. -/
def fieldOrD (p : JVal) (k : String) (dflt : JVal) : JVal :=
  match p.getField k with
  | some v => if v.truthy then v else dflt
  | none => dflt

/-- The join-path snapshot hydration (`src/server.js` lines 225–246 of the
`join` handler) applied to a (truthy, hence non-empty) stored value: the
`(data, settings)` pair sent back in the `snapshot` message. -/
def hydrateSnapshot (parse : String → Option JVal) (snap : String) : JVal × JVal :=
  let d0 := JVal.jstr snap
  if startsWithBrace snap then
    match parse snap with
    | some p =>
      if p.isObjLike then (fieldOrD p "data" d0, fieldOrD p "settings" JVal.jnull)
      else (d0, JVal.jnull)
    | none => (d0, JVal.jnull)
  else (d0, JVal.jnull)

/-- The envelope written by the `room_settings` handler: keep the existing
snapshot's `data` field (or the raw stored string, or `null` when nothing
is stored) and attach the new settings. -/
def roomSettingsPayload (parse : String → Option JVal) (existing : Option String)
    (settings : Option JVal) : String :=
  let dataV : JVal :=
    match existing with
    | none => JVal.jnull
    | some snap =>
      if decide (snap ≠ "") && startsWithBrace snap then
        match parse snap with
        | some p => if p.isObjLike then fieldOrD p "data" (JVal.jstr snap) else JVal.jstr snap
        | none => JVal.jstr snap
      else JVal.jstr snap
  envelopeString dataV settings

/-- The `if (snapshot) ...` hydration step of the `join` handler: load the
stored snapshot for `rid` and, when one is present and truthy, send the
split `(data, settings)` pair to the joiner. -/
def joinSnapshotOuts (parse : String → Option JVal) (store : Store)
    (rid : String) (selfId : ClientId) : List Output :=
  match getSnapshot store rid with
  | some snap =>
    if snap = "" then []
    else
      let ds := hydrateSnapshot parse snap
      [Output.send selfId (OutMsg.snapshotMsg ds.1 ds.2)]
  | none => []

/-- The `create` handler (`src/server.js` lines 158–197). -/
def handleCreate (cfg : Config) (now : Int) (w : World) (s : Session)
    (msg : InMsg) : StepResult :=
  let s := tagClient s msg.clientId
  match roomIdString msg.roomId with
  | none => ⟨w, s, [Output.send s.selfId (OutMsg.error "Invalid roomId")]⟩
  | some rid =>
    if !validRoomIdFormat rid then
      ⟨w, s, [Output.send s.selfId (OutMsg.error "Invalid roomId format")]⟩
    else if cfg.maxRooms ≤ w.rooms.length then
      ⟨w, s, [Output.send s.selfId (OutMsg.error "Server at capacity")]⟩
    else
      match lookupRoom w.rooms rid with
      | some _ => ⟨w, s, [Output.send s.selfId (OutMsg.error "Room already exists")]⟩
      | none =>
        let gr := getOrCreateRoom w.rooms rid now
        let room := gr.2.addClient s.selfId now
        ⟨{ w with rooms := setRoom gr.1 rid room },
         { s with currentRoom := some rid },
         [Output.send s.selfId (OutMsg.joined rid room.clients.length true)]⟩

/-- The `join` handler (`src/server.js` lines 199–258). -/
def handleJoin (parse : String → Option JVal) (ready : ClientId → Bool)
    (now : Int) (w : World) (s : Session) (msg : InMsg) : StepResult :=
  let s := tagClient s msg.clientId
  match roomIdString msg.roomId with
  | none => ⟨w, s, [Output.send s.selfId (OutMsg.error "Invalid roomId")]⟩
  | some rid =>
    if !validRoomIdFormat rid then
      ⟨w, s, [Output.send s.selfId (OutMsg.error "Invalid roomId format")]⟩
    else
      match lookupRoom w.rooms rid with
      | none => ⟨w, s, [Output.send s.selfId (OutMsg.error "Room not found")]⟩
      | some room0 =>
        let room := room0.addClient s.selfId now
        let s := { s with currentRoom := some rid }
        let snapOuts := joinSnapshotOuts parse w.store rid s.selfId
        let br := room.broadcastF ready (OutMsg.peerJoined room.clients.length)
          (some s.selfId) now
        ⟨{ w with rooms := setRoom w.rooms rid br.1 }, s,
         snapOuts
           ++ [Output.send s.selfId
                (OutMsg.joined rid room.clients.length (room.isHost s.selfId))]
           ++ br.2⟩

/-- The `update` handler (`src/server.js` lines 260–279). -/
def handleUpdate (ready : ClientId → Bool) (now : Int) (w : World) (s : Session)
    (msg : InMsg) : StepResult :=
  match s.currentRoom with
  | none => ⟨w, s, []⟩
  | some rid =>
    let s := tagClient s msg.clientId
    match validateBroadcastData msg.data with
    | some reason => ⟨w, s, [Output.send s.selfId (OutMsg.error reason)]⟩
    | none =>
      match lookupRoom w.rooms rid with
      | none => ⟨w, s, []⟩
      | some room =>
        let br := room.broadcastF ready (OutMsg.update msg.data) (some s.selfId) now
        ⟨{ w with rooms := setRoom w.rooms rid br.1 }, s, br.2⟩

/-- The `awareness` handler (`src/server.js` lines 316–335). -/
def handleAwareness (ready : ClientId → Bool) (now : Int) (w : World) (s : Session)
    (msg : InMsg) : StepResult :=
  match s.currentRoom with
  | none => ⟨w, s, []⟩
  | some rid =>
    let s := tagClient s msg.clientId
    match validateBroadcastData msg.data with
    | some reason => ⟨w, s, [Output.send s.selfId (OutMsg.error reason)]⟩
    | none =>
      match lookupRoom w.rooms rid with
      | none => ⟨w, s, []⟩
      | some room =>
        let br := room.broadcastF ready (OutMsg.awareness msg.data) (some s.selfId) now
        ⟨{ w with rooms := setRoom w.rooms rid br.1 }, s, br.2⟩

/-- The `room_settings` handler (`src/server.js` lines 281–314). -/
def handleRoomSettings (parse : String → Option JVal) (ready : ClientId → Bool)
    (now : Int) (w : World) (s : Session) (msg : InMsg) : StepResult :=
  match s.currentRoom with
  | none => ⟨w, s, []⟩
  | some rid =>
    match lookupRoom w.rooms rid with
    | none => ⟨w, s, []⟩
    | some room =>
      let br := room.broadcastF ready (OutMsg.roomSettings msg.data) (some s.selfId) now
      let payload := roomSettingsPayload parse (getSnapshot w.store rid) msg.data
      ⟨{ rooms := setRoom w.rooms rid br.1,
         store := saveSnapshot w.store rid payload }, s, br.2⟩

/-- The `close_room` handler (`src/server.js` lines 337–347). -/
def handleCloseRoom (ready : ClientId → Bool) (w : World) (s : Session) : StepResult :=
  match s.currentRoom with
  | none => ⟨w, s, []⟩
  | some rid =>
    match lookupRoom w.rooms rid with
    | none => ⟨w, s, []⟩
    | some room =>
      let cr := closeRoomFull w.rooms room ready "host_ended"
      ⟨{ w with rooms := cr.1 }, { s with currentRoom := none }, cr.2.2⟩

/-- The `snapshot` handler (`src/server.js` lines 349–358). -/
def handleSnapshotMsg (w : World) (s : Session) (msg : InMsg) : StepResult :=
  match s.currentRoom with
  | none => ⟨w, s, []⟩
  | some rid =>
    match msg.data with
    | some d =>
      if d.truthy then
        ⟨{ w with store := saveSnapshot w.store rid (envelopeString d msg.settings) },
         s, []⟩
      else ⟨w, s, []⟩
    | none => ⟨w, s, []⟩

/-- Dispatch of an authenticated frame by `message.type` (unknown types
fall through with no effect). -/
def handleAuthedMessage (cfg : Config) (parse : String → Option JVal)
    (ready : ClientId → Bool) (now : Int) (w : World) (s : Session)
    (msg : InMsg) : StepResult :=
  match msgTypeStr msg with
  | some t =>
    if t = "create" then handleCreate cfg now w s msg
    else if t = "join" then handleJoin parse ready now w s msg
    else if t = "update" then handleUpdate ready now w s msg
    else if t = "room_settings" then handleRoomSettings parse ready now w s msg
    else if t = "awareness" then handleAwareness ready now w s msg
    else if t = "close_room" then handleCloseRoom ready w s
    else if t = "snapshot" then handleSnapshotMsg w s msg
    else ⟨w, s, []⟩
  | none => ⟨w, s, []⟩

/-- The `ws.on('message')` handler body for one successfully parsed frame:
authentication gate, then rate limiting (with the `getUsageLevel` pruning),
then per-type dispatch. -/
def handleMessage (cfg : Config) (parse : String → Option JVal)
    (ready : ClientId → Bool) (now : Int) (w : World) (s : Session)
    (msg : InMsg) : StepResult :=
  if s.isAuthenticated = false then
    if msgTypeStr msg = some "auth" then
      if keyMatches msg cfg.internalKey then
        ⟨w, { s with isAuthenticated := true },
         [Output.send s.selfId OutMsg.authOk]⟩
      else ⟨w, s, [Output.close s.selfId 4003 "Invalid key"]⟩
    else ⟨w, s, [Output.close s.selfId 4001 "Authentication required"]⟩
  else
    let pr := checkAndRecord s.rateLimiter now
    let s1 := { s with rateLimiter := pr.1 }
    if pr.2.allowed = false then
      ⟨w, s1,
       [Output.send s.selfId (OutMsg.errorRetry "Rate limit exceeded" pr.2.resetIn),
        Output.close s.selfId 4029 "Rate limit exceeded"]⟩
    else
      let s2 := { s1 with rateLimiter := pruneTimestamps pr.1 now }
      handleAuthedMessage cfg parse ready now w s2 msg

/-! ## Properties under verification -/

/-- The room invariant claimed by the spec: the host reference is either
null or a member of the current member set. -/
def hostMemberInv (r : Room) : Prop :=
  ∀ h, r.hostWs = some h → h ∈ r.clients

/-- The code's base64 sniff `/^[A-Za-z0-9+\/=]+$/` (at least one character,
all from the base64 alphabet). -/
def looksBase64 (s : String) : Bool :=
  decide (s ≠ "") && s.data.all (fun c => c.isAlphanum || c = '+' || c = '/' || c = '=')

/-- The code's JSON-container sniff: the string opens a JSON object or array. -/
def looksJsonContainer (s : String) : Bool :=
  firstCharIs s (Char.ofNat 123) || firstCharIs s '['

/-- Modelled from the spec: the validity predicate asserted by the claim on
`update`/`awareness` payloads — "a string of length at most 512 KiB whose
content looks like base64 or like a JSON object/array" — for comparison
with the code's `validateBroadcastData`. -/
def claimValidPayload (d : Option JVal) : Bool :=
  match d with
  | some (JVal.jstr s) =>
    decide (s.length ≤ MAX_BROADCAST_DATA_SIZE) && (looksBase64 s || looksJsonContainer s)
  | _ => false

/-- Rate-limiter run invariant: after the calls whose admitted timestamps
are `A` (last call at `n0`), the limiter's stored timestamps are exactly
the admitted ones still inside the trailing window, `A` is nondecreasing,
and all of `A` lies in the past. -/
def LInv (W : Int) (Q : Nat) (A : List Int) (n0 : Int) (rl : RateLimiter) : Prop :=
  rl.windowMs = W ∧ rl.maxRequests = Q ∧
  rl.timestamps = A.filter (fun x => decide (n0 - W < x)) ∧
  A.Sorted (· ≤ ·) ∧ ∀ x ∈ A, x ≤ n0

/-- At most `Q` admitted timestamps in any trailing window of length `W`. -/
def WindowBound (W : Int) (Q : Nat) (A : List Int) : Prop :=
  ∀ T : Int, (A.filter (fun x => decide (T - W < x ∧ x ≤ T))).length ≤ Q

/-! ## Helper lemmas -/

/-- Tagging the session's presence id changes no other session field. -/
theorem tagClient_selfId (s : Session) (cid : Option JVal) :
    (tagClient s cid).selfId = s.selfId := by
  unfold tagClient
  cases cid with
  | none => rfl
  | some v => by_cases h : v.truthy <;> simp [h]

/-- Tagging the session's presence id keeps the current room. -/
theorem tagClient_currentRoom (s : Session) (cid : Option JVal) :
    (tagClient s cid).currentRoom = s.currentRoom := by
  unfold tagClient
  cases cid with
  | none => rfl
  | some v => by_cases h : v.truthy <;> simp [h]

/-- Removing a registry key makes it unmapped. -/
theorem lookupRoom_removeRoomEntry_self (rooms : Registry) (rid : String) :
    lookupRoom (removeRoomEntry rooms rid) rid = none := by
  induction rooms with
  | nil => rfl
  | cons p rest ih =>
    unfold removeRoomEntry at *
    by_cases h : p.1 = rid
    · simp only [List.filter_cons, h]
      simp_all
    · simp only [List.filter_cons, h]
      simp_all [lookupRoom, h]

/-- After `deleteRoom`, the id is unmapped. -/
theorem lookupRoom_deleteRoom_self (rooms : Registry) (rid : String) :
    lookupRoom (deleteRoom rooms rid).1 rid = none := by
  unfold deleteRoom
  cases h : lookupRoom rooms rid with
  | none => simp [h]
  | some room => simp [lookupRoom_removeRoomEntry_self]

/-- Store round trip: reading back the key just written. -/
theorem storeGet_storeSet_self (st : Store) (k v : String) :
    storeGet (storeSet st k v) k = some v := by
  induction st with
  | nil => simp [storeSet, storeGet]
  | cons p rest ih =>
    unfold storeSet
    by_cases h : p.1 = k
    · cases p; simp_all [storeGet]
    · cases p; simp_all [storeGet]

/-! ## C1 — host reference vs. member set -/

/-- C1 (counterexample): in the reachable state where clients 1 and 2 have
joined and the host (client 1) is then removed while client 2 remains,
`removeClient` leaves the host reference pointing at the departed client 1,
which is not `null` and not a member — refuting the claimed invariant. -/
theorem host_ref_dangles_after_host_removal :
    (((Room.new "r" 0).addClient 1 0).addClient 2 0 |>.removeClient 1 0).clients = [2]
    ∧ (((Room.new "r" 0).addClient 1 0).addClient 2 0 |>.removeClient 1 0).hostWs = some 1
    ∧ ¬ hostMemberInv (((Room.new "r" 0).addClient 1 0).addClient 2 0 |>.removeClient 1 0) := by
  refine ⟨rfl, rfl, fun hinv => ?_⟩
  have h1 : (1 : ClientId) ∈ [2] := hinv 1 rfl
  simp at h1

/-- `addClient` sets the host exactly when the room was empty. -/
theorem addClient_hostWs (r : Room) (c : ClientId) (now : Int) :
    (r.addClient c now).hostWs = if r.clients.length = 0 then some c else r.hostWs := by
  unfold Room.addClient
  by_cases hz : r.clients.length = 0 <;> simp [hz]

/-- `addClient` inserts the client into the member set (no duplicates). -/
theorem addClient_clients (r : Room) (c : ClientId) (now : Int) :
    (r.addClient c now).clients = if c ∈ r.clients then r.clients else r.clients ++ [c] := by
  unfold Room.addClient
  by_cases hz : r.clients.length = 0 <;> by_cases hc : c ∈ r.clients <;> simp [hz, hc]

/-- `removeClient` never touches the host reference. -/
theorem removeClient_hostWs (r : Room) (c : ClientId) (now : Int) :
    (r.removeClient c now).hostWs = r.hostWs := by
  unfold Room.removeClient
  dsimp only []
  split <;> rfl

/-- `removeClient` deletes the client from the member set. -/
theorem removeClient_clients (r : Room) (c : ClientId) (now : Int) :
    (r.removeClient c now).clients = r.clients.filter (fun x => decide (x ≠ c)) := by
  unfold Room.removeClient
  dsimp only []
  split <;> rfl

/-- C1 (amended): `addClient` preserves the host-is-null-or-member
invariant, and `removeClient` preserves it when the removed session is not
the host; when the host itself is removed the host reference is left
unchanged (it dangles on the departed session, as the counterexample
shows). -/
theorem host_member_inv_amended (r : Room) (c : ClientId) (now : Int)
    (hinv : hostMemberInv r) :
    hostMemberInv (r.addClient c now)
    ∧ (r.hostWs ≠ some c → hostMemberInv (r.removeClient c now))
    ∧ (r.removeClient c now).hostWs = r.hostWs := by
  refine ⟨?_, ?_, removeClient_hostWs r c now⟩
  · intro h hh
    rw [addClient_hostWs] at hh
    rw [addClient_clients]
    by_cases hz : r.clients.length = 0
    · rw [if_pos hz] at hh
      have hcl : r.clients = [] := List.length_eq_zero.mp hz
      have : h = c := by injection hh.symm
      subst this
      simp [hcl]
    · rw [if_neg hz] at hh
      have hm := hinv h hh
      by_cases hc : c ∈ r.clients <;> simp [hc, hm]
  · intro hne h hh
    rw [removeClient_hostWs] at hh
    rw [removeClient_clients]
    refine List.mem_filter.mpr ⟨hinv h hh, ?_⟩
    simp only [decide_eq_true_eq]
    intro hcc
    exact hne (hcc ▸ hh)

/-- C1 (witness): the amended preservation applied to a fresh room and
client 5 (host reference `none`, so the invariant holds vacuously). -/
theorem host_member_inv_amended_witness :
    hostMemberInv ((Room.new "x" 0).addClient 5 0)
    ∧ ((Room.new "x" 0).hostWs ≠ some 5 → hostMemberInv ((Room.new "x" 0).removeClient 5 0))
    ∧ ((Room.new "x" 0).removeClient 5 0).hostWs = (Room.new "x" 0).hostWs :=
  host_member_inv_amended (Room.new "x" 0) 5 0
    (fun h hh => by simp [Room.new] at hh)

/-! ## C6 — `deleteRoom` and the room timers -/

/-- C6 (counterexample): deleting a room whose empty-countdown timer is
armed clears the snapshot timer but leaves the empty-countdown timer
armed on the detached room object — `deleteRoom` does not cancel every
armed timer, contrary to the claim. -/
theorem deleteRoom_keeps_empty_countdown :
    (deleteRoom [("r", { id := "r", clients := [], hostWs := none, lastActivity := 0,
                         snapshotTimer := true, emptyCountdownTimer := true })] "r").2.map
        Room.emptyCountdownTimer = some true
    ∧ (deleteRoom [("r", { id := "r", clients := [], hostWs := none, lastActivity := 0,
                           snapshotTimer := true, emptyCountdownTimer := true })] "r").2.map
        Room.snapshotTimer = some false := ⟨rfl, rfl⟩

/-- `deleteRoom` of an unmapped id changes nothing. -/
theorem deleteRoom_absent (rooms : Registry) (rid : String)
    (h : lookupRoom rooms rid = none) : deleteRoom rooms rid = (rooms, none) := by
  unfold deleteRoom
  rw [h]

/-- C6 (amended): `deleteRoom` of a mapped id cancels the periodic-snapshot
timer on the room object (leaving the empty-countdown timer in whatever
state it was) and unmaps the id; a second delete, and a delete of an
unmapped id, change nothing. -/
theorem deleteRoom_spec_amended (rooms : Registry) (rid : String) (room : Room)
    (rooms2 : Registry)
    (h : lookupRoom rooms rid = some room)
    (h2 : lookupRoom rooms2 rid = none) :
    deleteRoom rooms rid
      = (removeRoomEntry rooms rid, some { room with snapshotTimer := false })
    ∧ (deleteRoom rooms rid).2.map Room.emptyCountdownTimer = some room.emptyCountdownTimer
    ∧ lookupRoom (deleteRoom rooms rid).1 rid = none
    ∧ deleteRoom (deleteRoom rooms rid).1 rid = ((deleteRoom rooms rid).1, none)
    ∧ deleteRoom rooms2 rid = (rooms2, none) := by
  have hd : deleteRoom rooms rid
      = (removeRoomEntry rooms rid, some { room with snapshotTimer := false }) := by
    unfold deleteRoom
    rw [h]
  have hl : lookupRoom (deleteRoom rooms rid).1 rid = none :=
    lookupRoom_deleteRoom_self rooms rid
  refine ⟨hd, by rw [hd]; rfl, hl, deleteRoom_absent _ _ hl, deleteRoom_absent _ _ h2⟩

/-- C6 (witness): the amended statement at a one-room registry with both
timers armed, and the empty registry for the absent-id case. -/
theorem deleteRoom_spec_amended_witness :
    deleteRoom [("a", { id := "a", clients := [3], hostWs := some 3, lastActivity := 7,
                        snapshotTimer := true, emptyCountdownTimer := true })] "a"
      = (removeRoomEntry [("a", { id := "a", clients := [3], hostWs := some 3, lastActivity := 7,
                                  snapshotTimer := true, emptyCountdownTimer := true })] "a",
         some { id := "a", clients := [3], hostWs := some 3, lastActivity := 7,
                snapshotTimer := false, emptyCountdownTimer := true })
    ∧ (deleteRoom [("a", { id := "a", clients := [3], hostWs := some 3, lastActivity := 7,
                           snapshotTimer := true, emptyCountdownTimer := true })] "a").2.map
        Room.emptyCountdownTimer = some true
    ∧ lookupRoom (deleteRoom [("a", { id := "a", clients := [3], hostWs := some 3, lastActivity := 7,
                                      snapshotTimer := true, emptyCountdownTimer := true })] "a").1 "a" = none
    ∧ deleteRoom (deleteRoom [("a", { id := "a", clients := [3], hostWs := some 3, lastActivity := 7,
                                      snapshotTimer := true, emptyCountdownTimer := true })] "a").1 "a"
      = ((deleteRoom [("a", { id := "a", clients := [3], hostWs := some 3, lastActivity := 7,
                              snapshotTimer := true, emptyCountdownTimer := true })] "a").1, none)
    ∧ deleteRoom ([] : Registry) "a" = (([] : Registry), none) :=
  deleteRoom_spec_amended
    [("a", { id := "a", clients := [3], hostWs := some 3, lastActivity := 7,
             snapshotTimer := true, emptyCountdownTimer := true })] "a"
    { id := "a", clients := [3], hostWs := some 3, lastActivity := 7,
      snapshotTimer := true, emptyCountdownTimer := true }
    [] rfl rfl

/-! ## C8 — idempotence of `closeRoom` -/

/-- C8: `closeRoom` is idempotent: running the close procedure again on
the already-closed room (membership cleared, timers cancelled, id removed
from the registry) produces no sends, closes no socket, and leaves both
the room object and the registry exactly as they were. -/
theorem closeRoom_idempotent (rooms : Registry) (r : Room) (ready : ClientId → Bool)
    (reason : String) :
    closeRoomFull (closeRoomFull rooms r ready reason).1
        (closeRoomFull rooms r ready reason).2.1 ready reason
      = ((closeRoomFull rooms r ready reason).1,
         (closeRoomFull rooms r ready reason).2.1, []) := by
  show ((deleteRoom (deleteRoom rooms r.id).1 r.id).1, Room.closeRoomState r, ([] : List Output))
    = ((deleteRoom rooms r.id).1, Room.closeRoomState r, ([] : List Output))
  rw [deleteRoom_absent ((deleteRoom rooms r.id).1) r.id (lookupRoom_deleteRoom_self rooms r.id)]

/-! ## C4 — unauthenticated sessions are inert -/

/-- C4: before authentication completes, no inbound frame of any type or
content changes the registry or the store, and every socket effect (the
`close` with code 4001/4003 or the `auth` acknowledgement) is addressed to
the session's own connection — never a broadcast to another session. -/
theorem unauthenticated_sessions_inert (cfg : Config) (parse : String → Option JVal)
    (ready : ClientId → Bool) (now : Int) (w : World) (s : Session) (msg : InMsg)
    (hauth : s.isAuthenticated = false) :
    (handleMessage cfg parse ready now w s msg).world = w
    ∧ ((handleMessage cfg parse ready now w s msg).outputs.all
        (fun o => o.target == s.selfId)) = true := by
  unfold handleMessage
  rw [hauth]
  simp only [if_true, reduceIte]
  by_cases ht : msgTypeStr msg = some "auth"
  · rw [if_pos ht]
    by_cases hk : keyMatches msg cfg.internalKey
    · simp [hk, Output.target]
    · simp [hk, Output.target]
  · rw [if_neg ht]
    simp [Output.target]

/-- C4 (witness): a fresh unauthenticated session sending a `join` frame
is answered only with its own close 4001 and the world is untouched. -/
theorem unauthenticated_sessions_inert_witness :
    (handleMessage ⟨"k", 100⟩ (fun _ => none) (fun _ => true) 0 ⟨[], []⟩
        ⟨1, false, none, none, initLimiter 1000 100⟩
        ⟨some (JVal.jstr "join"), none, some (JVal.jstr "abc"), none, none, none⟩).world
      = (⟨[], []⟩ : World)
    ∧ ((handleMessage ⟨"k", 100⟩ (fun _ => none) (fun _ => true) 0 ⟨[], []⟩
        ⟨1, false, none, none, initLimiter 1000 100⟩
        ⟨some (JVal.jstr "join"), none, some (JVal.jstr "abc"), none, none, none⟩).outputs.all
        (fun o => o.target == (1 : ClientId))) = true :=
  unauthenticated_sessions_inert ⟨"k", 100⟩ (fun _ => none) (fun _ => true) 0 ⟨[], []⟩
    ⟨1, false, none, none, initLimiter 1000 100⟩
    ⟨some (JVal.jstr "join"), none, some (JVal.jstr "abc"), none, none, none⟩ rfl

/-! ## C10 — frames from authenticated but unjoined sessions -/

/-- C10 (counterexample): an authenticated, unjoined session whose rate
limiter is exhausted (quota 1, one in-window timestamp) sends `update` and
is *not* silently ignored: it receives an error reply and its connection
is closed with code 4029 — refuting the claim's "no reply (not even an
error) is sent ... and the connection stays open". -/
theorem rate_limited_unjoined_update_replies :
    (handleMessage ⟨"k", 100⟩ (fun _ => none) (fun _ => true) 5 ⟨[], []⟩
        ⟨7, true, none, none, ⟨1000, 1, [5]⟩⟩
        ⟨some (JVal.jstr "update"), none, none, none, some (JVal.jstr "AA"), none⟩).outputs
      = [Output.send 7 (OutMsg.errorRetry "Rate limit exceeded" 1000),
         Output.close 7 4029 "Rate limit exceeded"] := rfl

/-- C10 (amended): provided the frame is admitted by the session's rate
limiter, an authenticated session that has not joined a room has its
`update`, `awareness`, `room_settings`, `snapshot` and `close_room` frames
silently ignored: no output at all is produced (so no reply and no close)
and the registry and store are unchanged. -/
theorem unjoined_frames_silently_ignored (cfg : Config) (parse : String → Option JVal)
    (ready : ClientId → Bool) (now : Int) (w : World) (s : Session) (msg : InMsg)
    (hauth : s.isAuthenticated = true)
    (hcur : s.currentRoom = none)
    (hrate : (checkAndRecord s.rateLimiter now).2.allowed = true)
    (htype : msg.type = some (JVal.jstr "update") ∨ msg.type = some (JVal.jstr "awareness")
      ∨ msg.type = some (JVal.jstr "room_settings") ∨ msg.type = some (JVal.jstr "snapshot")
      ∨ msg.type = some (JVal.jstr "close_room")) :
    (handleMessage cfg parse ready now w s msg).world = w
    ∧ (handleMessage cfg parse ready now w s msg).outputs = [] := by
  unfold handleMessage
  rw [hauth]
  simp only [Bool.true_eq_false, if_false, reduceIte, hrate]
  rcases htype with ht | ht | ht | ht | ht <;>
    simp [handleAuthedMessage, msgTypeStr, ht, handleUpdate, handleAwareness,
      handleRoomSettings, handleSnapshotMsg, handleCloseRoom, hcur]

/-- C10 (witness): the amended statement for a fresh authenticated session
sending `update` while unjoined. -/
theorem unjoined_frames_silently_ignored_witness :
    (handleMessage ⟨"k", 100⟩ (fun _ => none) (fun _ => true) 0 ⟨[], []⟩
        ⟨7, true, none, none, initLimiter 1000 100⟩
        ⟨some (JVal.jstr "update"), none, none, none, some (JVal.jstr "AA"), none⟩).world
      = (⟨[], []⟩ : World)
    ∧ (handleMessage ⟨"k", 100⟩ (fun _ => none) (fun _ => true) 0 ⟨[], []⟩
        ⟨7, true, none, none, initLimiter 1000 100⟩
        ⟨some (JVal.jstr "update"), none, none, none, some (JVal.jstr "AA"), none⟩).outputs
      = [] :=
  unjoined_frames_silently_ignored ⟨"k", 100⟩ (fun _ => none) (fun _ => true) 0 ⟨[], []⟩
    ⟨7, true, none, none, initLimiter 1000 100⟩
    ⟨some (JVal.jstr "update"), none, none, none, some (JVal.jstr "AA"), none⟩
    rfl rfl rfl (Or.inl rfl)

/-! ## C5 — `join` for an unknown room id -/

/-- C5 (counterexample): an authenticated session joining the well-formed
but unknown id `"abc"` on an empty registry is answered with the error
`Room not found`, and no room comes into existence — refuting the claim
that `join` creates the room. -/
theorem join_does_not_create_room :
    (handleMessage ⟨"k", 100⟩ (fun _ => none) (fun _ => true) 0 ⟨[], []⟩
        ⟨1, true, none, none, initLimiter 1000 100⟩
        ⟨some (JVal.jstr "join"), none, some (JVal.jstr "abc"), none, none, none⟩).outputs
      = [Output.send 1 (OutMsg.error "Room not found")]
    ∧ (handleMessage ⟨"k", 100⟩ (fun _ => none) (fun _ => true) 0 ⟨[], []⟩
        ⟨1, true, none, none, initLimiter 1000 100⟩
        ⟨some (JVal.jstr "join"), none, some (JVal.jstr "abc"), none, none, none⟩).world.rooms
      = []
    ∧ lookupRoom (handleMessage ⟨"k", 100⟩ (fun _ => none) (fun _ => true) 0 ⟨[], []⟩
        ⟨1, true, none, none, initLimiter 1000 100⟩
        ⟨some (JVal.jstr "join"), none, some (JVal.jstr "abc"), none, none, none⟩).world.rooms
        "abc"
      = none :=
  ⟨rfl, rfl, rfl⟩

/-- C5 (amended): an authenticated session's `join` for a well-formed room
id that is unknown to the registry does not create the room: the world is
unchanged, the session stays in its previous room state, and the only
effect is an error reply `Room not found` to the sender (rooms come into
existence only through `create`). -/
theorem join_unknown_room_rejected (cfg : Config) (parse : String → Option JVal)
    (ready : ClientId → Bool) (now : Int) (w : World) (s : Session) (msg : InMsg)
    (rid : String)
    (hauth : s.isAuthenticated = true)
    (hrate : (checkAndRecord s.rateLimiter now).2.allowed = true)
    (ht : msg.type = some (JVal.jstr "join"))
    (hrid : msg.roomId = some (JVal.jstr rid))
    (hfmt : validRoomIdFormat rid = true)
    (habs : lookupRoom w.rooms rid = none) :
    (handleMessage cfg parse ready now w s msg).world = w
    ∧ (handleMessage cfg parse ready now w s msg).outputs
      = [Output.send s.selfId (OutMsg.error "Room not found")]
    ∧ (handleMessage cfg parse ready now w s msg).session.currentRoom = s.currentRoom
    ∧ lookupRoom (handleMessage cfg parse ready now w s msg).world.rooms rid = none := by
  have hne : rid ≠ "" := by
    intro hh
    subst hh
    simp [validRoomIdFormat] at hfmt
  unfold handleMessage
  rw [hauth]
  simp only [Bool.true_eq_false, if_false, reduceIte, hrate]
  simp [handleAuthedMessage, msgTypeStr, ht, handleJoin, roomIdString, hrid, hne, hfmt,
    habs, tagClient_selfId, tagClient_currentRoom]

/-- C5 (witness): the amended statement at the concrete unknown id `"abc"`
on an empty registry. -/
theorem join_unknown_room_rejected_witness :
    (handleMessage ⟨"k", 100⟩ (fun _ => none) (fun _ => true) 0 ⟨[], []⟩
        ⟨2, true, none, none, initLimiter 1000 100⟩
        ⟨some (JVal.jstr "join"), none, some (JVal.jstr "abc"), none, none, none⟩).world
      = (⟨[], []⟩ : World)
    ∧ (handleMessage ⟨"k", 100⟩ (fun _ => none) (fun _ => true) 0 ⟨[], []⟩
        ⟨2, true, none, none, initLimiter 1000 100⟩
        ⟨some (JVal.jstr "join"), none, some (JVal.jstr "abc"), none, none, none⟩).outputs
      = [Output.send 2 (OutMsg.error "Room not found")]
    ∧ (handleMessage ⟨"k", 100⟩ (fun _ => none) (fun _ => true) 0 ⟨[], []⟩
        ⟨2, true, none, none, initLimiter 1000 100⟩
        ⟨some (JVal.jstr "join"), none, some (JVal.jstr "abc"), none, none, none⟩).session.currentRoom
      = (⟨2, true, none, none, initLimiter 1000 100⟩ : Session).currentRoom
    ∧ lookupRoom (handleMessage ⟨"k", 100⟩ (fun _ => none) (fun _ => true) 0 ⟨[], []⟩
        ⟨2, true, none, none, initLimiter 1000 100⟩
        ⟨some (JVal.jstr "join"), none, some (JVal.jstr "abc"), none, none, none⟩).world.rooms
        "abc"
      = none :=
  join_unknown_room_rejected ⟨"k", 100⟩ (fun _ => none) (fun _ => true) 0 ⟨[], []⟩
    ⟨2, true, none, none, initLimiter 1000 100⟩
    ⟨some (JVal.jstr "join"), none, some (JVal.jstr "abc"), none, none, none⟩
    "abc" rfl rfl rfl rfl (by decide) rfl

/-! ## C9 — `close_room` does not check the host -/

/-- C9: for *any* joined session — the statement quantifies over every
session and never assumes `isHost` — a `close_room` frame (admitted by the
rate limiter) runs the full close procedure with reason `host_ended`:
every open member is sent `room_closed`, every member socket is closed
with code 1000, the room is removed from the registry, and the sender
returns to the unjoined state.  The host reference plays no role. -/
theorem close_room_without_host_check (cfg : Config) (parse : String → Option JVal)
    (ready : ClientId → Bool) (now : Int) (w : World) (s : Session) (msg : InMsg)
    (rid : String) (room : Room)
    (hauth : s.isAuthenticated = true)
    (hrate : (checkAndRecord s.rateLimiter now).2.allowed = true)
    (ht : msg.type = some (JVal.jstr "close_room"))
    (hcur : s.currentRoom = some rid)
    (hroom : lookupRoom w.rooms rid = some room)
    (hid : room.id = rid) :
    (handleMessage cfg parse ready now w s msg).outputs
      = room.closeRoomOutputs ready "host_ended"
    ∧ (handleMessage cfg parse ready now w s msg).world.rooms = (deleteRoom w.rooms rid).1
    ∧ lookupRoom (handleMessage cfg parse ready now w s msg).world.rooms rid = none
    ∧ (handleMessage cfg parse ready now w s msg).session.currentRoom = none
    ∧ (handleMessage cfg parse ready now w s msg).world.store = w.store := by
  unfold handleMessage
  rw [hauth]
  simp only [Bool.true_eq_false, if_false, reduceIte, hrate]
  simp [handleAuthedMessage, msgTypeStr, ht, handleCloseRoom, hcur, hroom,
    closeRoomFull, hid, lookupRoom_deleteRoom_self]

/-- C9 (witness): client 2 — a non-host member (the host is client 1) —
closes room `"r"`: both members are notified, both sockets are closed with
code 1000, and the room is gone. -/
theorem close_room_without_host_check_witness :
    (handleMessage ⟨"k", 100⟩ (fun _ => none) (fun _ => true) 0
        ⟨[("r", ⟨"r", [1, 2], some 1, 0, false, false⟩)], []⟩
        ⟨2, true, some "r", none, initLimiter 1000 100⟩
        ⟨some (JVal.jstr "close_room"), none, none, none, none, none⟩).outputs
      = (⟨"r", [1, 2], some 1, 0, false, false⟩ : Room).closeRoomOutputs
          (fun _ => true) "host_ended"
    ∧ (handleMessage ⟨"k", 100⟩ (fun _ => none) (fun _ => true) 0
        ⟨[("r", ⟨"r", [1, 2], some 1, 0, false, false⟩)], []⟩
        ⟨2, true, some "r", none, initLimiter 1000 100⟩
        ⟨some (JVal.jstr "close_room"), none, none, none, none, none⟩).world.rooms
      = (deleteRoom [("r", ⟨"r", [1, 2], some 1, 0, false, false⟩)] "r").1
    ∧ lookupRoom (handleMessage ⟨"k", 100⟩ (fun _ => none) (fun _ => true) 0
        ⟨[("r", ⟨"r", [1, 2], some 1, 0, false, false⟩)], []⟩
        ⟨2, true, some "r", none, initLimiter 1000 100⟩
        ⟨some (JVal.jstr "close_room"), none, none, none, none, none⟩).world.rooms "r"
      = none
    ∧ (handleMessage ⟨"k", 100⟩ (fun _ => none) (fun _ => true) 0
        ⟨[("r", ⟨"r", [1, 2], some 1, 0, false, false⟩)], []⟩
        ⟨2, true, some "r", none, initLimiter 1000 100⟩
        ⟨some (JVal.jstr "close_room"), none, none, none, none, none⟩).session.currentRoom
      = none
    ∧ (handleMessage ⟨"k", 100⟩ (fun _ => none) (fun _ => true) 0
        ⟨[("r", ⟨"r", [1, 2], some 1, 0, false, false⟩)], []⟩
        ⟨2, true, some "r", none, initLimiter 1000 100⟩
        ⟨some (JVal.jstr "close_room"), none, none, none, none, none⟩).world.store
      = [] :=
  close_room_without_host_check ⟨"k", 100⟩ (fun _ => none) (fun _ => true) 0
    ⟨[("r", ⟨"r", [1, 2], some 1, 0, false, false⟩)], []⟩
    ⟨2, true, some "r", none, initLimiter 1000 100⟩
    ⟨some (JVal.jstr "close_room"), none, none, none, none, none⟩
    "r" ⟨"r", [1, 2], some 1, 0, false, false⟩ rfl rfl rfl rfl rfl rfl

/-! ## C7 — `update`/`awareness` payload validation -/

/-- C7 (counterexample): the empty string passes `validateBroadcastData`
(the content sniff is skipped for zero-length data) and is relayed to the
other member, although it looks neither like base64 nor like a JSON
object/array — refuting the claimed "relayed iff looks like base64 or
JSON" equivalence. -/
theorem empty_string_update_relayed :
    validateBroadcastData (some (JVal.jstr "")) = none
    ∧ looksBase64 "" = false
    ∧ looksJsonContainer "" = false
    ∧ claimValidPayload (some (JVal.jstr "")) = false
    ∧ (handleMessage ⟨"k", 100⟩ (fun _ => none) (fun _ => true) 0
        ⟨[("r", ⟨"r", [1, 2], some 1, 0, false, false⟩)], []⟩
        ⟨1, true, some "r", none, initLimiter 1000 100⟩
        ⟨some (JVal.jstr "update"), none, none, none, some (JVal.jstr ""), none⟩).outputs
      = [Output.send 2 (OutMsg.update (some (JVal.jstr "")))] :=
  ⟨rfl, rfl, rfl, rfl, rfl⟩

/-- The code's acceptance condition versus the claim's: `validateBroadcastData`
accepts exactly the claimed payloads (a string of at most 512 KiB looking
like base64 or like a JSON object/array) *plus* the empty string. -/
theorem validate_iff_claim (d : Option JVal) :
    validateBroadcastData d = none
      ↔ (claimValidPayload d = true ∨ d = some (JVal.jstr "")) := by
  cases d with
  | none => simp [validateBroadcastData, claimValidPayload]
  | some v =>
    cases v with
    | jstr sv =>
      by_cases hlen : MAX_BROADCAST_DATA_SIZE < sv.length
      · have hne : sv ≠ "" := by
          intro h
          rw [h] at hlen
          simp [MAX_BROADCAST_DATA_SIZE] at hlen
        have hnle : ¬ sv.length ≤ MAX_BROADCAST_DATA_SIZE := Nat.not_le.mpr hlen
        simp [validateBroadcastData, claimValidPayload, hlen, hnle, hne]
      · have hle : sv.length ≤ MAX_BROADCAST_DATA_SIZE := Nat.not_lt.mp hlen
        by_cases h0 : 0 < sv.length
        · have hne : sv ≠ "" := by
            intro h
            rw [h] at h0
            simp at h0
          simp only [validateBroadcastData, claimValidPayload, if_neg hlen, if_pos h0,
            looksBase64, looksJsonContainer, hle, decide_eq_true_eq]
          by_cases hb : sv.data.all (fun c => c.isAlphanum || c = '+' || c = '/' || c = '=')
          · simp [hb, hne, hle]
          · by_cases hj : firstCharIs sv (Char.ofNat 123) || firstCharIs sv '['
            · simp [hb, hj, hne, hle]
            · simp [hb, hj, hne, hle]
        · have hz : sv = "" := by
            have : sv.length = 0 := Nat.eq_zero_of_not_pos h0
            exact String.ext (List.length_eq_zero.mp this)
          subst hz
          simp [validateBroadcastData, claimValidPayload]
    | jnull => simp [validateBroadcastData, claimValidPayload]
    | jbool b => simp [validateBroadcastData, claimValidPayload]
    | jnum n => simp [validateBroadcastData, claimValidPayload]
    | jobj fs => simp [validateBroadcastData, claimValidPayload]
    | jarr es => simp [validateBroadcastData, claimValidPayload]

/-- C7 (amended): for a joined session whose frame is admitted by the rate
limiter, an `update`/`awareness` payload is relayed (broadcast verbatim to
the other open members) iff it is a string of at most 512 KiB that is
empty or looks like base64 or like a JSON object/array; every other value
is answered with an error reply to the sender only, and nothing else
changes. -/
theorem broadcast_validation_amended (cfg : Config) (parse : String → Option JVal)
    (ready : ClientId → Bool) (now : Int) (w : World) (s : Session) (msg : InMsg)
    (rid : String) (room : Room)
    (hauth : s.isAuthenticated = true)
    (hrate : (checkAndRecord s.rateLimiter now).2.allowed = true)
    (ht : msg.type = some (JVal.jstr "update") ∨ msg.type = some (JVal.jstr "awareness"))
    (hcur : s.currentRoom = some rid)
    (hroom : lookupRoom w.rooms rid = some room) :
    (validateBroadcastData msg.data = none
      ↔ (claimValidPayload msg.data = true ∨ msg.data = some (JVal.jstr "")))
    ∧ (handleMessage cfg parse ready now w s msg).outputs
      = (match validateBroadcastData msg.data with
         | none =>
           (room.broadcastF ready
             (if msgTypeStr msg = some "update" then OutMsg.update msg.data
              else OutMsg.awareness msg.data) (some s.selfId) now).2
         | some reason => [Output.send s.selfId (OutMsg.error reason)])
    ∧ (handleMessage cfg parse ready now w s msg).world.store = w.store
    ∧ (validateBroadcastData msg.data ≠ none →
        (handleMessage cfg parse ready now w s msg).world = w) := by
  refine ⟨validate_iff_claim msg.data, ?_⟩
  unfold handleMessage
  rw [hauth]
  simp only [Bool.true_eq_false, if_false, reduceIte, hrate]
  rcases ht with ht | ht <;>
    cases hv : validateBroadcastData msg.data <;>
      simp [handleAuthedMessage, msgTypeStr, ht, handleUpdate, handleAwareness,
        hcur, hroom, hv, tagClient_selfId]

/-- C7 (witness): the amended statement for client 1 broadcasting the
base64-looking payload `"QUFB"` in a two-member room. -/
theorem broadcast_validation_amended_witness :
    (validateBroadcastData (some (JVal.jstr "QUFB")) = none
      ↔ (claimValidPayload (some (JVal.jstr "QUFB")) = true
          ∨ some (JVal.jstr "QUFB") = some (JVal.jstr "")))
    ∧ (handleMessage ⟨"k", 100⟩ (fun _ => none) (fun _ => true) 0
        ⟨[("r", ⟨"r", [1, 2], some 1, 0, false, false⟩)], []⟩
        ⟨1, true, some "r", none, initLimiter 1000 100⟩
        ⟨some (JVal.jstr "update"), none, none, none, some (JVal.jstr "QUFB"), none⟩).outputs
      = (match validateBroadcastData (some (JVal.jstr "QUFB")) with
         | none =>
           ((⟨"r", [1, 2], some 1, 0, false, false⟩ : Room).broadcastF (fun _ => true)
             (if msgTypeStr ⟨some (JVal.jstr "update"), none, none, none,
                  some (JVal.jstr "QUFB"), none⟩ = some "update"
              then OutMsg.update (some (JVal.jstr "QUFB"))
              else OutMsg.awareness (some (JVal.jstr "QUFB"))) (some 1) 0).2
         | some reason => [Output.send 1 (OutMsg.error reason)])
    ∧ (handleMessage ⟨"k", 100⟩ (fun _ => none) (fun _ => true) 0
        ⟨[("r", ⟨"r", [1, 2], some 1, 0, false, false⟩)], []⟩
        ⟨1, true, some "r", none, initLimiter 1000 100⟩
        ⟨some (JVal.jstr "update"), none, none, none, some (JVal.jstr "QUFB"), none⟩).world.store
      = []
    ∧ (validateBroadcastData (some (JVal.jstr "QUFB")) ≠ none →
        (handleMessage ⟨"k", 100⟩ (fun _ => none) (fun _ => true) 0
          ⟨[("r", ⟨"r", [1, 2], some 1, 0, false, false⟩)], []⟩
          ⟨1, true, some "r", none, initLimiter 1000 100⟩
          ⟨some (JVal.jstr "update"), none, none, none, some (JVal.jstr "QUFB"), none⟩).world
        = ⟨[("r", ⟨"r", [1, 2], some 1, 0, false, false⟩)], []⟩) :=
  broadcast_validation_amended ⟨"k", 100⟩ (fun _ => none) (fun _ => true) 0
    ⟨[("r", ⟨"r", [1, 2], some 1, 0, false, false⟩)], []⟩
    ⟨1, true, some "r", none, initLimiter 1000 100⟩
    ⟨some (JVal.jstr "update"), none, none, none, some (JVal.jstr "QUFB"), none⟩
    "r" ⟨"r", [1, 2], some 1, 0, false, false⟩ rfl rfl (Or.inl rfl) rfl rfl

/-! ## C3 — snapshot envelope round trip -/

/-- The serialised form of a JSON object always opens with `\x7b`, so the
join-path envelope sniff fires on every stored envelope. -/
theorem startsWithBrace_jobj (fs : List (String × JVal)) :
    startsWithBrace (stringifyJson (JVal.jobj fs)) = true := by
  show firstCharIs ("\x7b" ++ stringifyFields fs ++ "\x7d") (Char.ofNat 123) = true
  unfold firstCharIs
  rw [String.data_append, String.data_append]
  rfl

/-- C3 (amended): persisting a snapshot message `{data: D, settings: S}`
for room `R` (with `D` truthy, as the handler requires) and hydrating on
join yields `data = D`; the hydrated settings equal `S` when `S` is null
or truthy — and a stored bare string that is non-empty and not parseable
as a JSON object envelope hydrates as `data =` the whole string with null
settings.  (`parse` is the JS runtime's `JSON.parse`, pinned by hypothesis
to invert `JSON.stringify` on the one stored envelope.) -/
theorem snapshot_roundtrip_amended (store store2 : Store) (R : String) (D S : JVal)
    (parse : String → Option JVal) (s : String) (c : ClientId)
    (hD : D.truthy = true)
    (hS : S = JVal.jnull ∨ S.truthy = true)
    (hparse : parse (envelopeString D (some S))
      = some (JVal.jobj [("data", D), ("settings", S)]))
    (hs : s ≠ "")
    (hleg : startsWithBrace s = false ∨ parse s = none)
    (hstore2 : getSnapshot store2 R = some s) :
    getSnapshot (saveSnapshot store R (envelopeString D (some S))) R
      = some (envelopeString D (some S))
    ∧ joinSnapshotOuts parse (saveSnapshot store R (envelopeString D (some S))) R c
      = [Output.send c (OutMsg.snapshotMsg D S)]
    ∧ joinSnapshotOuts parse store2 R c
      = [Output.send c (OutMsg.snapshotMsg (JVal.jstr s) JVal.jnull)] := by
  have hget : getSnapshot (saveSnapshot store R (envelopeString D (some S))) R
      = some (envelopeString D (some S)) :=
    storeGet_storeSet_self store (snapKey R) (envelopeString D (some S))
  have hbrace : startsWithBrace (envelopeString D (some S)) = true :=
    startsWithBrace_jobj [("data", D), ("settings", S)]
  have hne : envelopeString D (some S) ≠ "" := by
    intro h
    rw [h] at hbrace
    simp [startsWithBrace, firstCharIs] at hbrace
  have hhyd : hydrateSnapshot parse (envelopeString D (some S)) = (D, S) := by
    unfold hydrateSnapshot
    rw [hbrace, hparse]
    simp only [if_true, JVal.isObjLike]
    have hdata : fieldOrD (JVal.jobj [("data", D), ("settings", S)]) "data"
        (JVal.jstr (envelopeString D (some S))) = D := by
      simp [fieldOrD, JVal.getField, lookupField, hD]
    have hsett : fieldOrD (JVal.jobj [("data", D), ("settings", S)]) "settings"
        JVal.jnull = S := by
      rcases hS with hS | hS
      · subst hS
        simp [fieldOrD, JVal.getField, lookupField, JVal.truthy]
      · simp [fieldOrD, JVal.getField, lookupField, hS]
    rw [hdata, hsett]
  refine ⟨hget, ?_, ?_⟩
  · unfold joinSnapshotOuts
    rw [hget]
    dsimp only []
    rw [if_neg hne, hhyd]
  · unfold joinSnapshotOuts
    rw [hstore2]
    dsimp only []
    rw [if_neg hs]
    rcases hleg with hb | hp
    · simp [hydrateSnapshot, hb]
    · by_cases hb : startsWithBrace s
      · simp [hydrateSnapshot, hb, hp]
      · simp [hydrateSnapshot, hb]

/-- C3 (counterexample): persisting `{data: "d", settings: ""}` and
hydrating on join yields `settings = null`, not the stored `""` — the
falsy-but-non-null settings value is dropped by the `if (parsed.settings)`
truthiness test, refuting "settings equal to S" for every `S`.  (`parse`
is pinned to `JSON.parse`'s value on the single stored envelope.) -/
theorem snapshot_falsy_settings_load_null :
    joinSnapshotOuts
      (fun str => if str = envelopeString (JVal.jstr "d") (some (JVal.jstr ""))
        then some (JVal.jobj [("data", JVal.jstr "d"), ("settings", JVal.jstr "")])
        else none)
      (saveSnapshot [] "r" (envelopeString (JVal.jstr "d") (some (JVal.jstr "")))) "r" 9
      = [Output.send 9 (OutMsg.snapshotMsg (JVal.jstr "d") JVal.jnull)]
    ∧ JVal.jnull ≠ JVal.jstr "" := by
  refine ⟨rfl, ?_⟩
  intro h
  exact JVal.noConfusion h

/-- C3 (witness): the amended round trip at `D = "d"`, `S = "s"` for room
`"r"`, and the legacy bare string `"legacy"` already stored for room `"r"`
in a second store. -/
theorem snapshot_roundtrip_amended_witness :
    getSnapshot (saveSnapshot [] "r" (envelopeString (JVal.jstr "d") (some (JVal.jstr "s")))) "r"
      = some (envelopeString (JVal.jstr "d") (some (JVal.jstr "s")))
    ∧ joinSnapshotOuts
        (fun str => if str = envelopeString (JVal.jstr "d") (some (JVal.jstr "s"))
          then some (JVal.jobj [("data", JVal.jstr "d"), ("settings", JVal.jstr "s")])
          else none)
        (saveSnapshot [] "r" (envelopeString (JVal.jstr "d") (some (JVal.jstr "s")))) "r" 9
      = [Output.send 9 (OutMsg.snapshotMsg (JVal.jstr "d") (JVal.jstr "s"))]
    ∧ joinSnapshotOuts
        (fun str => if str = envelopeString (JVal.jstr "d") (some (JVal.jstr "s"))
          then some (JVal.jobj [("data", JVal.jstr "d"), ("settings", JVal.jstr "s")])
          else none)
        [(snapKey "r", "legacy")] "r" 9
      = [Output.send 9 (OutMsg.snapshotMsg (JVal.jstr "legacy") JVal.jnull)] :=
  snapshot_roundtrip_amended [] [(snapKey "r", "legacy")] "r"
    (JVal.jstr "d") (JVal.jstr "s")
    (fun str => if str = envelopeString (JVal.jstr "d") (some (JVal.jstr "s"))
      then some (JVal.jobj [("data", JVal.jstr "d"), ("settings", JVal.jstr "s")])
      else none)
    "legacy" 9 rfl (Or.inr rfl) (by simp) (by simp) (Or.inl rfl) rfl

/-! ## C2 — sliding-window rate limiter -/

/-- One `checkAndRecord` step preserves the run invariant and the
trailing-window bound, and rejects exactly when `Q` admitted timestamps
are still strictly inside the window ending at the call time. -/
theorem checkAndRecord_step (W : Int) (Q : Nat) (A : List Int) (n0 : Int)
    (rl : RateLimiter) (t : Int) (hW : 0 < W)
    (hinv : LInv W Q A n0 rl) (hcnt : WindowBound W Q A) (hn : n0 ≤ t) :
    ((checkAndRecord rl t).2.allowed = true →
        LInv W Q (A ++ [t]) t (checkAndRecord rl t).1 ∧ WindowBound W Q (A ++ [t]))
    ∧ ((checkAndRecord rl t).2.allowed = false →
        LInv W Q A t (checkAndRecord rl t).1 ∧ WindowBound W Q A)
    ∧ ((checkAndRecord rl t).2.allowed = false
        ↔ Q ≤ (A.filter (fun x => decide (t - W < x))).length) := by
  obtain ⟨w1, q1, ts1⟩ := rl
  obtain ⟨hw, hq, hts, hsort, hle⟩ := hinv
  dsimp only [] at hw hq hts
  have hw' : W = w1 := hw.symm
  have hq' : Q = q1 := hq.symm
  subst hw' hq' hts
  have hFF : (A.filter (fun x => decide (n0 - W < x))).filter (fun x => decide (t - W < x))
      = A.filter (fun x => decide (t - W < x)) := by
    rw [List.filter_filter]
    apply List.filter_congr
    intro x _
    by_cases hx : t - W < x
    · have hx0 : n0 - W < x := by omega
      simp [hx, hx0]
    · simp [hx]
  unfold checkAndRecord
  dsimp only []
  rw [hFF]
  by_cases hc : Q ≤ (A.filter (fun x => decide (t - W < x))).length
  · rw [if_pos hc]
    refine ⟨fun habs => by simp at habs, fun _ => ⟨?_, hcnt⟩, by simp [hc]⟩
    exact ⟨rfl, rfl, rfl, hsort, fun x hx => le_trans (hle x hx) hn⟩
  · rw [if_neg hc]
    refine ⟨fun _ => ⟨⟨rfl, rfl, ?_, ?_, ?_⟩, ?_⟩, fun habs => by simp at habs, by simp [hc]⟩
    · rw [List.filter_append]
      have : List.filter (fun x => decide (t - W < x)) [t] = [t] := by
        simp [show t - W < t from by omega]
      rw [this]
    · refine List.pairwise_append.mpr ⟨hsort, List.pairwise_singleton _ _, ?_⟩
      intro a ha b hb
      rw [List.mem_singleton] at hb
      subst hb
      exact le_trans (hle a ha) hn
    · intro x hx
      rcases List.mem_append.mp hx with h | h
      · exact le_trans (hle x h) hn
      · rw [List.mem_singleton] at h
        omega
    · intro T
      rw [List.filter_append, List.length_append]
      by_cases hT : T - W < t ∧ t ≤ T
      · have h1 : (List.filter (fun x => decide (T - W < x ∧ x ≤ T)) [t]).length = 1 := by
          simp [hT]
        rw [h1]
        have hmono : (A.filter (fun x => decide (T - W < x ∧ x ≤ T))).length
            ≤ (A.filter (fun x => decide (t - W < x))).length := by
          rw [← List.countP_eq_length_filter, ← List.countP_eq_length_filter]
          apply List.countP_mono_left
          intro a _ hpa
          simp only [decide_eq_true_eq] at hpa ⊢
          omega
        have hlt : (A.filter (fun x => decide (t - W < x))).length < Q := Nat.lt_of_not_le hc
        omega
      · have h0 : (List.filter (fun x => decide (T - W < x ∧ x ≤ T)) [t]).length = 0 := by
          simp [hT]
        rw [h0]
        have := hcnt T
        omega

/-- Running the limiter over a nondecreasing sequence of call times keeps
the invariant and the trailing-window bound. -/
theorem runAdmitted_inv (W : Int) (Q : Nat) (hW : 0 < W) (ts : List Int) :
    ∀ (A : List Int) (n0 : Int) (rl : RateLimiter),
      LInv W Q A n0 rl → WindowBound W Q A →
      List.Sorted (· ≤ ·) ts → (∀ t ∈ ts, n0 ≤ t) →
      LInv W Q (A ++ (runAdmitted rl ts).2) (lastTime n0 ts) (runAdmitted rl ts).1
      ∧ WindowBound W Q (A ++ (runAdmitted rl ts).2) := by
  induction ts with
  | nil =>
    intro A n0 rl hinv hcnt _ _
    simpa [runAdmitted, lastTime] using ⟨hinv, hcnt⟩
  | cons t ts ih =>
    intro A n0 rl hinv hcnt hsort hge
    have hn : n0 ≤ t := hge t (List.mem_cons_self t ts)
    have hstep := checkAndRecord_step W Q A n0 rl t hW hinv hcnt hn
    have hsort' : List.Sorted (· ≤ ·) ts := (List.sorted_cons.mp hsort).2
    have hts_ge : ∀ x ∈ ts, t ≤ x := (List.sorted_cons.mp hsort).1
    have hrun : runAdmitted rl (t :: ts)
        = ((runAdmitted (checkAndRecord rl t).1 ts).1,
           if (checkAndRecord rl t).2.allowed
           then t :: (runAdmitted (checkAndRecord rl t).1 ts).2
           else (runAdmitted (checkAndRecord rl t).1 ts).2) := rfl
    have hlast : lastTime n0 (t :: ts) = lastTime t ts := rfl
    cases ha : (checkAndRecord rl t).2.allowed
    · obtain ⟨hinv', hcnt'⟩ := hstep.2.1 ha
      have := ih A t (checkAndRecord rl t).1 hinv' hcnt' hsort' hts_ge
      rw [hrun, hlast]
      simpa [ha] using this
    · obtain ⟨hinv', hcnt'⟩ := hstep.1 ha
      have := ih (A ++ [t]) t (checkAndRecord rl t).1 hinv' hcnt' hsort' hts_ge
      rw [hrun, hlast]
      simp only [ha, if_true]
      rw [show A ++ t :: (runAdmitted (checkAndRecord rl t).1 ts).2
          = (A ++ [t]) ++ (runAdmitted (checkAndRecord rl t).1 ts).2 from
        List.append_cons A t _]
      exact this

/-- Analysis of one further `checkAndRecord` call from an invariant state:
the rejection condition and the reported `resetIn`. -/
theorem checkAndRecord_final (W : Int) (Q : Nat) (A : List Int) (n0 now : Int)
    (rl : RateLimiter) (hinv : LInv W Q A n0 rl) (hn : n0 ≤ now) :
    ((checkAndRecord rl now).2.allowed = false
      ↔ Q ≤ (A.filter (fun x => decide (now - W < x))).length)
    ∧ ((checkAndRecord rl now).2.allowed = false →
        (checkAndRecord rl now).2.resetIn
          = (A.filter (fun x => decide (now - W < x))).headD 0 + W - now) := by
  obtain ⟨w1, q1, ts1⟩ := rl
  obtain ⟨hw, hq, hts, hsort, hle⟩ := hinv
  dsimp only [] at hw hq hts
  have hw' : W = w1 := hw.symm
  have hq' : Q = q1 := hq.symm
  subst hw' hq' hts
  have hFF : (A.filter (fun x => decide (n0 - W < x))).filter (fun x => decide (now - W < x))
      = A.filter (fun x => decide (now - W < x)) := by
    rw [List.filter_filter]
    apply List.filter_congr
    intro x _
    by_cases hx : now - W < x
    · have hx0 : n0 - W < x := by omega
      simp [hx, hx0]
    · simp [hx]
  unfold checkAndRecord
  dsimp only []
  rw [hFF]
  by_cases hc : Q ≤ (A.filter (fun x => decide (now - W < x))).length
  · rw [if_pos hc]
    exact ⟨by simp [hc], fun _ => rfl⟩
  · rw [if_neg hc]
    exact ⟨by simp [hc], fun habs => by simp at habs⟩

/-- The last call time of a run of past calls is itself in the past. -/
theorem lastTime_le (now : Int) (ts : List Int) :
    ∀ n0 : Int, n0 ≤ now → (∀ t ∈ ts, t ≤ now) → lastTime n0 ts ≤ now := by
  induction ts with
  | nil => intro n0 h _; simpa [lastTime] using h
  | cons t ts ih =>
    intro n0 _ hall
    show lastTime t ts ≤ now
    exact ih t (hall t (List.mem_cons_self t ts))
      (fun x hx => hall x (List.mem_cons_of_mem t hx))

/-- In a sorted list, the default head bounds every element from below. -/
theorem headD_le_mem (ts : List Int) (d : Int) (hsort : List.Sorted (· ≤ ·) ts) :
    ∀ t ∈ ts, ts.headD d ≤ t := by
  cases ts with
  | nil => intro t ht; simp at ht
  | cons a l =>
    intro t ht
    rcases List.mem_cons.mp ht with h | h
    · subst h; simp
    · simpa using (List.sorted_cons.mp hsort).1 t h

/-- C2: over any nondecreasing sequence of `checkAndRecord` call times
(all at or before the probe time `now`), (a) at most `Q` calls are
admitted with timestamps in any trailing interval `(T - W, T]`; (b) a
further call at `now` is rejected iff at least `Q` admitted timestamps are
strictly newer than `now - W`; and (c) on rejection (with a positive
quota) the reported `resetIn` is non-negative and equals the time until
the oldest in-window admitted timestamp (the head of the sorted in-window
list) exits the window. -/
theorem rate_limiter_sliding_window (W : Int) (Q : Nat) (times : List Int) (T now : Int)
    (hW : 0 < W)
    (hsorted : List.Sorted (· ≤ ·) times)
    (hpast : ∀ t ∈ times, t ≤ now) :
    ((admittedTimes (initLimiter W Q) times).filter
        (fun x => decide (T - W < x ∧ x ≤ T))).length ≤ Q
    ∧ ((checkAndRecord (runAdmitted (initLimiter W Q) times).1 now).2.allowed = false
        ↔ Q ≤ ((admittedTimes (initLimiter W Q) times).filter
            (fun x => decide (now - W < x))).length)
    ∧ (1 ≤ Q →
        (checkAndRecord (runAdmitted (initLimiter W Q) times).1 now).2.allowed = false →
        (admittedTimes (initLimiter W Q) times).filter (fun x => decide (now - W < x)) ≠ []
        ∧ List.Sorted (· ≤ ·)
            ((admittedTimes (initLimiter W Q) times).filter (fun x => decide (now - W < x)))
        ∧ (checkAndRecord (runAdmitted (initLimiter W Q) times).1 now).2.resetIn
          = ((admittedTimes (initLimiter W Q) times).filter
              (fun x => decide (now - W < x))).headD 0 + W - now
        ∧ 0 ≤ (checkAndRecord (runAdmitted (initLimiter W Q) times).1 now).2.resetIn) := by
  have hhd : times.headD now ≤ now := by
    cases times with
    | nil => simp
    | cons a l => simpa using hpast a (List.mem_cons_self a l)
  have hinv0 : LInv W Q [] (times.headD now) (initLimiter W Q) :=
    ⟨rfl, rfl, rfl, List.sorted_nil, by simp⟩
  have hcnt0 : WindowBound W Q [] := fun _ => by simp
  have hge : ∀ t ∈ times, times.headD now ≤ t := headD_le_mem times now hsorted
  obtain ⟨hinv1, hcnt1⟩ :=
    runAdmitted_inv W Q hW times [] (times.headD now) (initLimiter W Q) hinv0 hcnt0
      hsorted hge
  rw [List.nil_append] at hinv1 hcnt1
  have hlast : lastTime (times.headD now) times ≤ now :=
    lastTime_le now times (times.headD now) hhd hpast
  have hfin := checkAndRecord_final W Q (admittedTimes (initLimiter W Q) times)
    (lastTime (times.headD now) times) now (runAdmitted (initLimiter W Q) times).1
    hinv1 hlast
  refine ⟨hcnt1 T, hfin.1, ?_⟩
  intro hQ hrej
  have hlen := hfin.1.mp hrej
  have hpos : 0 < ((admittedTimes (initLimiter W Q) times).filter
      (fun x => decide (now - W < x))).length := lt_of_lt_of_le hQ hlen
  have hne : (admittedTimes (initLimiter W Q) times).filter
      (fun x => decide (now - W < x)) ≠ [] := List.length_pos.mp hpos
  have hsortF : List.Sorted (· ≤ ·)
      ((admittedTimes (initLimiter W Q) times).filter (fun x => decide (now - W < x))) :=
    List.Pairwise.filter _ hinv1.2.2.2.1
  have hreset := hfin.2 hrej
  refine ⟨hne, hsortF, hreset, ?_⟩
  cases hF : (admittedTimes (initLimiter W Q) times).filter (fun x => decide (now - W < x)) with
  | nil => exact absurd hF hne
  | cons m F' =>
    have hm : m ∈ (admittedTimes (initLimiter W Q) times).filter
        (fun x => decide (now - W < x)) := hF ▸ List.mem_cons_self m F'
    have hmw : now - W < m := of_decide_eq_true (List.mem_filter.mp hm).2
    rw [hreset, hF]
    show (0 : Int) ≤ m + W - now
    omega

/-- C2 (witness): window 10, quota 2, calls at times 0, 3 and 5 (the third
is rejected: both earlier admissions are still in-window), probed at time
5 with trailing interval `(-5, 5]`. -/
theorem rate_limiter_sliding_window_witness :
    ((admittedTimes (initLimiter 10 2) [0, 3, 5]).filter
        (fun x => decide ((5 : Int) - 10 < x ∧ x ≤ 5))).length ≤ 2
    ∧ ((checkAndRecord (runAdmitted (initLimiter 10 2) [0, 3, 5]).1 5).2.allowed = false
        ↔ 2 ≤ ((admittedTimes (initLimiter 10 2) [0, 3, 5]).filter
            (fun x => decide ((5 : Int) - 10 < x))).length)
    ∧ (1 ≤ 2 →
        (checkAndRecord (runAdmitted (initLimiter 10 2) [0, 3, 5]).1 5).2.allowed = false →
        (admittedTimes (initLimiter 10 2) [0, 3, 5]).filter
            (fun x => decide ((5 : Int) - 10 < x)) ≠ []
        ∧ List.Sorted (· ≤ ·)
            ((admittedTimes (initLimiter 10 2) [0, 3, 5]).filter
              (fun x => decide ((5 : Int) - 10 < x)))
        ∧ (checkAndRecord (runAdmitted (initLimiter 10 2) [0, 3, 5]).1 5).2.resetIn
          = ((admittedTimes (initLimiter 10 2) [0, 3, 5]).filter
              (fun x => decide ((5 : Int) - 10 < x))).headD 0 + 10 - 5
        ∧ 0 ≤ (checkAndRecord (runAdmitted (initLimiter 10 2) [0, 3, 5]).1 5).2.resetIn) :=
  rate_limiter_sliding_window 10 2 [0, 3, 5] 5 5 (by decide)
    (by decide) (by decide)
